import Mathlib

/-!
Verification of `flight_search_ctrip.py`, a Playwright-driven scraper that
queries one-way flights for tomorrow and extracts flight records from the
rendered page.  The Python source is shallowly embedded below: pure string
manipulation becomes Lean functions on `String`/`List Char`, fallible
browser-driver calls (locator reads, clicks, visibility checks) become
`Except Unit`-valued fields of explicit page/card/element structures, and
the control flow of each function is transcribed loop-for-loop.
-/

/-! ## Python string primitives -/

/-- Python `str.strip()` restricted to ASCII whitespace (space, tab, CR, LF),
which is all that occurs in the scraped fields we reason about: drop leading
and trailing whitespace. -/
def pyStrip (s : String) : String :=
  String.mk (((s.data.dropWhile Char.isWhitespace).reverse.dropWhile
    Char.isWhitespace).reverse)

/-- Helper for `pySplit`: the accumulator holds the characters of the token
being read, in reverse. -/
def pySplitAux : List Char → List Char → List String
  | [], acc => if acc.isEmpty then [] else [String.mk acc.reverse]
  | c :: cs, acc =>
    if c.isWhitespace then
      if acc.isEmpty then pySplitAux cs []
      else String.mk acc.reverse :: pySplitAux cs []
    else pySplitAux cs (c :: acc)

/-- Python `str.split()` with no argument: split on runs of whitespace,
discarding empty pieces. -/
def pySplit (s : String) : List String := pySplitAux s.data []

/-- Python `str.replace(",", "")`: drop every comma character. -/
def pyRemoveCommas (s : String) : List Char :=
  s.data.filter (fun c => c ≠ ',')

/-- Python truthiness of `dict.get(k)` for string-valued dicts: the key is
present and its value is a non-empty string. -/
def truthyOpt : Option String → Bool
  | none => false
  | some s => s ≠ ""

/-- The first maximal run of digits in a character list, as matched by
`re.search(r"(\d+)", s)` group 1; empty when the list has no digit. -/
def firstDigitRun : List Char → List Char
  | [] => []
  | c :: cs => if c.isDigit then c :: cs.takeWhile Char.isDigit else firstDigitRun cs

/-- Price-field parsing from `extract_flight_info`:
`re.search(r"(\d+)", price_elem.replace(",", ""))`, with `""` when there is
no match. -/
def extractPriceDigits (s : String) : String :=
  String.mk (firstDigitRun (pyRemoveCommas s))

/-! ## Structured extraction (`extract_flight_info`) -/

/-- One flight record: the Python dict built per card.  A field is `none`
when the corresponding key was never assigned. -/
structure FlightInfo where
  airline : Option String := none
  flight_no : Option String := none
  depart_time : Option String := none
  arrive_time : Option String := none
  depart_airport : Option String := none
  arrive_airport : Option String := none
  price : Option String := none
  aircraft : Option String := none
  on_time_rate : Option String := none
  deriving Repr, DecidableEq

/-- One matched flight-card element, described by the outcome of each of the
six driver reads `extract_flight_info` performs on it.  `Except.error ()`
models the read raising (e.g. a locator timeout); `Except.ok` carries the
value Playwright would return (`text_content` may be `None`,
`all_text_contents` yields a list). -/
structure Card where
  airline_text : Except Unit (Option String)
  time_texts : Except Unit (List String)
  airport_texts : Except Unit (List String)
  price_text : Except Unit (Option String)
  craft_text : Except Unit (Option String)
  rate_text : Except Unit (Option String)

/-- Airline/flight-number assignment: on truthy text, split on whitespace;
`parts[0] if parts else ""` and `parts[1] if len(parts) > 1 else ""`. -/
def applyAirline (r : FlightInfo) (t : Option String) : FlightInfo :=
  match t with
  | some s =>
      if s ≠ "" then
        let parts := pySplit s
        { r with airline := some (parts.getD 0 ""), flight_no := some (parts.getD 1 "") }
      else r
  | none => r

/-- Departure/arrival time assignment, made only when at least two matching
text elements were found. -/
def applyTimes (r : FlightInfo) (ts : List String) : FlightInfo :=
  if 2 ≤ ts.length then
    { r with depart_time := some (pyStrip (ts.getD 0 "")),
             arrive_time := some (pyStrip (ts.getD 1 "")) }
  else r

/-- Departure/arrival airport assignment, same two-element guard. -/
def applyAirports (r : FlightInfo) (ps : List String) : FlightInfo :=
  if 2 ≤ ps.length then
    { r with depart_airport := some (pyStrip (ps.getD 0 "")),
             arrive_airport := some (pyStrip (ps.getD 1 "")) }
  else r

/-- Price assignment: on truthy text, store the first digit run of the
comma-stripped text (possibly `""`). -/
def applyPrice (r : FlightInfo) (t : Option String) : FlightInfo :=
  match t with
  | some s => if s ≠ "" then { r with price := some (extractPriceDigits s) } else r
  | none => r

/-- Aircraft assignment: always assigned, `craft_elem.strip() if craft_elem
else ""`. -/
def applyCraft (r : FlightInfo) (t : Option String) : FlightInfo :=
  { r with aircraft := some (match t with
      | some s => if s ≠ "" then pyStrip s else ""
      | none => "") }

/-- On-time-rate assignment: always assigned, like the aircraft field. -/
def applyRate (r : FlightInfo) (t : Option String) : FlightInfo :=
  { r with on_time_rate := some (match t with
      | some s => if s ≠ "" then pyStrip s else ""
      | none => "") }

/-- The per-card body of `extract_flight_info`'s loop: the six reads in
source order; the first read that raises aborts the card (the Python
`except Exception: continue`). -/
def extractCardE (c : Card) : Except Unit FlightInfo := do
  let a ← c.airline_text
  let ts ← c.time_texts
  let ap ← c.airport_texts
  let p ← c.price_text
  let cr ← c.craft_text
  let rt ← c.rate_text
  pure (applyRate (applyCraft (applyPrice (applyAirports (applyTimes
    (applyAirline {} a) ts) ap) p) cr) rt)

/-- The record state after all field-level extraction attempts for a card
that did complete: field assignments made before the first raising read are
kept, later fields are left absent.  This is the state the spec's retention
sentence quantifies over. -/
def extractCardPartial (c : Card) : FlightInfo :=
  match c.airline_text with
  | .error _ => {}
  | .ok a =>
    let r1 := applyAirline {} a
    match c.time_texts with
    | .error _ => r1
    | .ok ts =>
      let r2 := applyTimes r1 ts
      match c.airport_texts with
      | .error _ => r2
      | .ok ap =>
        let r3 := applyAirports r2 ap
        match c.price_text with
        | .error _ => r3
        | .ok p =>
          let r4 := applyPrice r3 p
          match c.craft_text with
          | .error _ => r4
          | .ok cr =>
            let r5 := applyCraft r4 cr
            match c.rate_text with
            | .error _ => r5
            | .ok rt => applyRate r5 rt

/-- Whether none of the six reads of a card raises. -/
def cardNoRaise (c : Card) : Bool :=
  c.airline_text.isOk && c.time_texts.isOk && c.airport_texts.isOk &&
  c.price_text.isOk && c.craft_text.isOk && c.rate_text.isOk

/-- Whether `extract_flight_info` appends a record for this card:
the card loop body completes and `flight_info.get("flight_no") or
flight_info.get("price")` is truthy. -/
def retainedCard (c : Card) : Bool :=
  match extractCardE c with
  | .error _ => false
  | .ok r => truthyOpt r.flight_no || truthyOpt r.price

/-- The card-container selector cascade of `extract_flight_info`. -/
def card_selectors : List String :=
  ["[class*=\"flight-item\"]", "[class*=\"FlightItem\"]", "[class*=\"list-item\"]",
   "[class*=\"flight-card\"]", "[data-flight]", ".flight-box"]

/-- The page as `extract_flight_info` sees it: the result of
`page.locator(sel).all()` for each card selector (which may raise), and the
visible body text used by the generic fallback. -/
structure ScrapePage where
  cardQuery : String → Except Unit (List Card)
  bodyText : String

/-- The selector cascade: first selector whose query succeeds with a
non-empty element list wins; failures and empty lists fall through. -/
def pickCards (page : ScrapePage) : List String → List Card
  | [] => []
  | sel :: rest =>
    match page.cardQuery sel with
    | .error _ => pickCards page rest
    | .ok [] => pickCards page rest
    | .ok es => es

/-- The structured phase of `extract_flight_info`: at most 20 cards, each
extracted by the loop body, kept only when retained. -/
def structuredRecords (cards : List Card) : List FlightInfo :=
  (cards.take 20).filterMap (fun c =>
    match extractCardE c with
    | .error _ => none
    | .ok r => if truthyOpt r.flight_no || truthyOpt r.price then some r else none)

/-! ## Generic fallback extraction (`extract_generic_flight_info`)

The three `re.findall` calls are modelled by explicit left-to-right
non-overlapping scanners.  Python's word character class is approximated by
ASCII `[A-Za-z0-9_]` (non-ASCII characters count as non-word); none of the
properties proved below depends on which positions match. -/

/-- ASCII approximation of the regex word class, used for word boundaries. -/
def isWordChar (c : Char) : Bool := c.isAlphanum || c = '_'

/-- Attempt to match the pattern fragment of flight numbers,
two uppercase letters then three or four digits followed by a word
boundary, at the head of the list (the boundary before the head is checked
by the caller).  Returns the matched characters and the remaining input. -/
def matchFlightHere (l : List Char) : Option (List Char × List Char) :=
  match l with
  | a :: b :: d1 :: d2 :: d3 :: rest3 =>
    if a.isUpper && b.isUpper && d1.isDigit && d2.isDigit && d3.isDigit then
      match rest3 with
      | d4 :: rest4 =>
        if d4.isDigit then
          match rest4 with
          | [] => some ([a, b, d1, d2, d3, d4], [])
          | c :: _ =>
            if isWordChar c then none
            else some ([a, b, d1, d2, d3, d4], rest4)
        else
          if isWordChar d4 then none
          else some ([a, b, d1, d2, d3], rest3)
      | [] => some ([a, b, d1, d2, d3], [])
    else none
  | _ => none

/-- Scanner for `re.findall` of the flight-number pattern.  The `Bool`
records whether the previous character was a word character (so that the
leading word boundary can be checked); fuel is the remaining input length,
which strictly bounds the recursion. -/
def findFlightAux : Nat → Bool → List Char → List String
  | 0, _, _ => []
  | _, _, [] => []
  | fuel + 1, prevWord, c :: cs =>
    if prevWord then findFlightAux fuel (isWordChar c) cs
    else
      match matchFlightHere (c :: cs) with
      | some (m, rest) => String.mk m :: findFlightAux fuel true rest
      | none => findFlightAux fuel (isWordChar c) cs

/-- All flight-number matches in the body text, in order. -/
def findFlightNos (text : String) : List String :=
  findFlightAux text.data.length false text.data

/-- Attempt to match the time pattern, two digits, a colon, two digits,
followed by a word boundary, at the head of the list. -/
def matchTimeHere (l : List Char) : Option (List Char × List Char) :=
  match l with
  | d1 :: d2 :: colon :: d3 :: d4 :: rest =>
    if d1.isDigit && d2.isDigit && colon = ':' && d3.isDigit && d4.isDigit then
      match rest with
      | [] => some ([d1, d2, colon, d3, d4], [])
      | c :: _ =>
        if isWordChar c then none else some ([d1, d2, colon, d3, d4], rest)
    else none
  | _ => none

/-- Scanner for `re.findall` of the time pattern. -/
def findTimeAux : Nat → Bool → List Char → List String
  | 0, _, _ => []
  | _, _, [] => []
  | fuel + 1, prevWord, c :: cs =>
    if prevWord then findTimeAux fuel (isWordChar c) cs
    else
      match matchTimeHere (c :: cs) with
      | some (m, rest) => String.mk m :: findTimeAux fuel true rest
      | none => findTimeAux fuel (isWordChar c) cs

/-- All time matches in the body text, in order. -/
def findTimes (text : String) : List String :=
  findTimeAux text.data.length false text.data

/-- Attempt to match the price pattern at the head of the list: an optional
currency glyph, optional whitespace, three to five digits (greedy), then
optional whitespace and an optional suffix character, all consumed by the
match; group 1 is the digit run.  Returns group 1 and the rest. -/
def matchPriceHere (l : List Char) : Option (List Char × List Char) :=
  let l1 := match l with
    | c :: cs => if c = '¥' || c = '￥' then cs else l
    | [] => l
  let l2 := l1.dropWhile Char.isWhitespace
  let ds := l2.takeWhile Char.isDigit
  if 3 ≤ ds.length then
    let g := ds.take 5
    let rest1 := l2.drop g.length
    let rest2 := rest1.dropWhile Char.isWhitespace
    let rest3 := match rest2 with
      | c :: cs => if c = '元' || c = '起' then cs else rest2
      | [] => rest2
    some (g, rest3)
  else none

/-- Scanner for `re.findall` of the price pattern (no word boundaries). -/
def findPriceAux : Nat → List Char → List String
  | 0, _ => []
  | _, [] => []
  | fuel + 1, c :: cs =>
    match matchPriceHere (c :: cs) with
    | some (m, rest) => String.mk m :: findPriceAux fuel rest
    | none => findPriceAux fuel cs

/-- All price matches (group 1) in the body text, in order. -/
def findPrices (text : String) : List String :=
  findPriceAux text.data.length text.data

/-- A fallback record: the Python dict with its four always-present keys. -/
structure GenFlightInfo where
  flight_no : String
  depart_time : String
  arrive_time : String
  price : String
  deriving Repr, DecidableEq

/-- The synthesis loop of `extract_generic_flight_info`: pair the i-th
unique flight number with times at positions 2i and 2i+1 and the price at
position i, leaving a field empty when its list is too short. -/
def genericCombine (unique_flights times prices : List String) : List GenFlightInfo :=
  (unique_flights.take 10).enum.map (fun p =>
    { flight_no := p.2,
      depart_time := times.getD (p.1 * 2) "",
      arrive_time := times.getD (p.1 * 2 + 1) "",
      price := prices.getD p.1 "" })

/-- `extract_generic_flight_info` on a body text.  Python's
`list(set(flight_numbers))` has unspecified order; it is modelled by
`List.dedup`, and no property proved below depends on the order chosen. -/
def extract_generic_flight_info (text : String) : List GenFlightInfo :=
  genericCombine (findFlightNos text).dedup (findTimes text) (findPrices text)

/-- A fallback record viewed as a `FlightInfo` dict: exactly its four keys
are present. -/
def genToInfo (g : GenFlightInfo) : FlightInfo :=
  { flight_no := some g.flight_no, depart_time := some g.depart_time,
    arrive_time := some g.arrive_time, price := some g.price }

/-- Full `extract_flight_info`: the structured phase over the selector
cascade, falling back to the generic text scan when it yields nothing. -/
def extract_flight_info (page : ScrapePage) : List FlightInfo :=
  let flights := structuredRecords (pickCards page card_selectors)
  if flights.isEmpty then (extract_generic_flight_info page.bodyText).map genToInfo
  else flights

/-! ## Popup dismissal (`handle_popups`) -/

/-- One element matched by a popup selector: the outcome of its
`is_visible(timeout=1000)` check (which may raise) and whether its
`click(timeout=2000)` would succeed. -/
structure PopupElem where
  visible : Except Unit Bool
  clickOk : Bool

/-- The page as `handle_popups` sees it: the result of
`page.locator(selector).all()` for each selector (which may raise). -/
structure PopupPage where
  query : String → Except Unit (List PopupElem)

/-- The fixed (selector, label) table of `handle_popups`. -/
def popup_handlers : List (String × String) :=
  [("button[class*=\"close\"], [class*=\"close-btn\"], .close, [aria-label=\"关闭\"]",
    "关闭按钮"),
   ("[class*=\"modal\"] button[class*=\"close\"], [class*=\"dialog\"] [class*=\"close\"]",
    "弹窗关闭"),
   ("[class*=\"app-download\"] .close, [class*=\"download\"] .close", "APP下载提示"),
   ("button:has-text(\"稍后再说\"), button:has-text(\"暂不\"), button:has-text(\"取消\")",
    "稍后提示"),
   ("button:has-text(\"接受\"), button:has-text(\"同意\"), button:has-text(\"我知道了\")",
    "Cookie提示")]

/-- The inner element loop of one pattern: visit each element, click the
visible ones.  Returns the number of clicks performed and whether an
exception aborted the loop (a raising visibility check or click stops this
pattern; clicks already performed are counted). -/
def visitElems : List PopupElem → Nat × Bool
  | [] => (0, false)
  | e :: es =>
    match e.visible with
    | .error _ => (0, true)
    | .ok true =>
      if e.clickOk then
        let r := visitElems es
        (r.1 + 1, r.2)
      else (0, true)
    | .ok false => visitElems es

/-- One pattern body without its surrounding `try`: the query, then the
element loop, as an `Except` value carrying the click count. -/
def runPatternBody (page : PopupPage) (sel : String) : Except Unit Nat :=
  match page.query sel with
  | .error e => .error e
  | .ok es =>
    let r := visitElems es
    if r.2 then .error () else .ok r.1

/-- The pattern loop of `handle_popups` with its bare `except: pass` per
pattern, transcribed over the `Except` results of each pattern body.  The
returned value is the total click count reported when no exception escapes. -/
def popupLoop (page : PopupPage) : List (String × String) → Nat → Except Unit Nat
  | [], acc => .ok acc
  | h :: t, acc =>
    match runPatternBody page h.1 with
    | .error _ => popupLoop page t acc
    | .ok n => popupLoop page t (acc + n)

/-- Clicks physically performed while processing one pattern (clicks made
before the pattern aborts are included; a failed query clicks nothing). -/
def patternClicks (page : PopupPage) (sel : String) : Nat :=
  match page.query sel with
  | .error _ => 0
  | .ok es => (visitElems es).1

/-- Total clicks physically performed by one `handle_popups` invocation. -/
def handle_popups (page : PopupPage) : Nat :=
  popup_handlers.foldl (fun acc h => acc + patternClicks page h.1) 0

/-! ## Submit-button cascade (step 5 of `search_flights`) -/

/-- The ordered candidate submit-button selectors. -/
def search_selectors : List String :=
  ["button:has-text(\"搜索\")", "button:has-text(\"查询\")", ".search-btn",
   "[class*=\"search\"]", "button[type=\"submit\"]"]

/-- The page as the submit loop sees it: for each selector, the outcome of
`locator(sel).first.is_visible(timeout=2000)` and of the click on it. -/
structure SubmitPage where
  visibleRes : String → Except Unit Bool
  clickRes : String → Except Unit Unit

/-- The submit loop: for each selector in order, check visibility; on a
visible candidate, click it; a successful click breaks the loop, while a
raising check or click falls into `except: continue`.  Returns the list of
click attempts as (selector, click succeeded) pairs, in order. -/
def submitClicks (page : SubmitPage) : List String → List (String × Bool)
  | [] => []
  | sel :: rest =>
    match page.visibleRes sel with
    | .error _ => submitClicks page rest
    | .ok false => submitClicks page rest
    | .ok true =>
      match page.clickRes sel with
      | .ok _ => [(sel, true)]
      | .error _ => (sel, false) :: submitClicks page rest

/-! ## Date computation and search URLs -/

/-- A calendar date. -/
structure Date where
  year : Nat
  month : Nat
  day : Nat
  deriving Repr, DecidableEq

/-- Gregorian leap-year rule. -/
def isLeapYear (y : Nat) : Bool := (y % 4 = 0 && y % 100 ≠ 0) || y % 400 = 0

/-- Days in a month. -/
def daysInMonth (y m : Nat) : Nat :=
  if m = 2 then (if isLeapYear y then 29 else 28)
  else if m = 4 || m = 6 || m = 9 || m = 11 then 30 else 31

/-- `datetime.now() + timedelta(days=1)`, restricted to its date part: the
next calendar day. -/
def nextDay (d : Date) : Date :=
  if d.day < daysInMonth d.year d.month then ⟨d.year, d.month, d.day + 1⟩
  else if d.month < 12 then ⟨d.year, d.month + 1, 1⟩
  else ⟨d.year + 1, 1, 1⟩

/-- Decimal digit characters of a natural number, most significant first. -/
def natChars (n : Nat) : List Char :=
  if h : n < 10 then [Char.ofNat (48 + n)]
  else natChars (n / 10) ++ [Char.ofNat (48 + n % 10)]
  decreasing_by exact Nat.div_lt_self (by omega) (by omega)

/-- Left-pad with zeros to width k, as strftime does. -/
def padZeros (k : Nat) (l : List Char) : List Char :=
  List.replicate (k - l.length) '0' ++ l

/-- strftime field of width 2 (month, day). -/
def fmt2 (n : Nat) : List Char := padZeros 2 (natChars n)

/-- strftime field of width 4 (year). -/
def fmt4 (n : Nat) : List Char := padZeros 4 (natChars n)

/-- `strftime("%Y-%m-%d")`. -/
def strftime_Ymd (d : Date) : String :=
  String.mk (fmt4 d.year ++ '-' :: (fmt2 d.month ++ '-' :: fmt2 d.day))

/-- `tomorrow_str` of `search_flights`. -/
def tomorrow_str (today : Date) : String := strftime_Ymd (nextDay today)

/-- `tomorrow_str.replace("-", "")`, the date substituted into both URLs. -/
def dateForUrl (today : Date) : String :=
  String.mk ((tomorrow_str today).data.filter (fun c => c ≠ '-'))

/-- The first (international) search URL. -/
def url_international (today : Date) : String :=
  "https://flights.ctrip.com/international/search/oneway-sha-bjs?depdate=" ++
    dateForUrl today ++ "&cabin=y_s"

/-- The second (domestic route) search URL. -/
def url_domestic (today : Date) : String :=
  "https://flights.ctrip.com/online/list/oneway-hak-bjs?depdate=" ++
    dateForUrl today ++ "&cabin=y_s"

/-- The spec's `YYYYMMDD` rendering of a date. -/
def specYYYYMMDD (d : Date) : String :=
  String.mk (fmt4 d.year ++ fmt2 d.month ++ fmt2 d.day)

/-- The spec's `YYYY-MM-DD` rendering of a date. -/
def specDisplay (d : Date) : String :=
  String.mk (fmt4 d.year ++ '-' :: (fmt2 d.month ++ '-' :: fmt2 d.day))

/-! ## Top-level control flow of `search_flights` -/

/-- Observable events of one run.  Main-sequence work inside the `try`
block is abstracted as numbered body steps. -/
inductive Ev where
  | launch
  | newContext
  | newPage
  | bodyStep (n : Nat)
  | printError
  | printTrace
  | screenshot (path : String)
  | waitMs (ms : Nat)
  | closeBrowser
  | printDone
  deriving Repr, DecidableEq

/-- One run's environment: whether `chromium.launch` succeeds, the abstract
steps the `try` body performs before finishing or raising, and whether it
raises. -/
structure RunEnv where
  launchOk : Bool
  bodySteps : List Nat
  bodyRaises : Bool

/-- The event trace of `search_flights` and whether an exception escapes
it.  Launch, context and page creation happen before the `try`; the
`except Exception` block prints, screenshots, and waits 60 s; the `finally`
block closes the browser and prints completion. -/
def search_flights_run (env : RunEnv) : List Ev × Bool :=
  if !env.launchOk then ([Ev.launch], true)
  else
    let pre := [Ev.launch, Ev.newContext, Ev.newPage] ++ env.bodySteps.map Ev.bodyStep
    if env.bodyRaises then
      (pre ++ [Ev.printError, Ev.printTrace, Ev.screenshot "error_screenshot.png",
               Ev.waitMs 60000, Ev.closeBrowser, Ev.printDone], false)
    else
      (pre ++ [Ev.closeBrowser, Ev.printDone], false)

/-! ## Helper lemmas -/

/-- Elements kept by `takeWhile` satisfy its predicate (restatement of
`List.all_takeWhile` for rewriting). -/
theorem takeWhile_all_sat {α : Type} (p : α → Bool) (l : List α) :
    (l.takeWhile p).all p = true := List.all_takeWhile

/-- The head surviving `dropWhile` fails the predicate. -/
theorem dropWhile_head_not {α : Type} (p : α → Bool) (l : List α) (c : α)
    (h : (l.dropWhile p).head? = some c) : p c = false := by
  induction l with
  | nil => simp [List.dropWhile] at h
  | cons a t ih =>
    rw [List.dropWhile_cons] at h
    split at h
    · exact ih h
    · simp_all

/-- Access into `genericCombine`: the i-th synthesized record pairs the i-th
retained flight number with times 2i and 2i+1 and price i, defaulting to
the empty string past the end of a list. -/
theorem genericCombine_get (u t p : List String) (i : Nat)
    (h : i < (genericCombine u t p).length) :
    (genericCombine u t p).get ⟨i, h⟩ =
      { flight_no := (u.take 10).getD i "", depart_time := t.getD (i * 2) "",
        arrive_time := t.getD (i * 2 + 1) "", price := p.getD i "" } := by
  have hi : i < (u.take 10).length := by
    simpa [genericCombine] using h
  have hi2 : i < (u.take 10).enum.length := by simpa using hi
  rw [List.get_eq_getElem]
  show ((u.take 10).enum.map _)[i] = _
  rw [List.getElem_map, List.getElem_enum]
  rw [List.getD_eq_getElem (u.take 10) "" hi]

/-- Length of the synthesized fallback list. -/
theorem genericCombine_length (u t p : List String) :
    (genericCombine u t p).length = min 10 u.length := by
  simp [genericCombine]

/-- Unfolding equation for `firstDigitRun` on a cons cell. -/
theorem firstDigitRun_cons (c : Char) (cs : List Char) :
    firstDigitRun (c :: cs) =
      if c.isDigit then c :: cs.takeWhile Char.isDigit else firstDigitRun cs := rfl

/-- Characterization of `firstDigitRun`: when empty, the input has no
digit; otherwise the input splits as a digit-free prefix, the run itself (a
non-empty list of digits), and a remainder that does not start with a
digit. -/
theorem firstDigitRun_spec (l : List Char) :
    (firstDigitRun l = [] → l.all (fun c => !c.isDigit) = true) ∧
    (firstDigitRun l ≠ [] →
      ∃ pre post, l = pre ++ firstDigitRun l ++ post ∧
        pre.all (fun c => !c.isDigit) = true ∧
        (firstDigitRun l).all Char.isDigit = true ∧
        ∀ c, post.head? = some c → c.isDigit = false) := by
  induction l with
  | nil => simp [firstDigitRun]
  | cons c cs ih =>
    by_cases hc : c.isDigit
    · rw [firstDigitRun_cons, if_pos hc]
      constructor
      · intro h
        exact absurd h (by simp)
      · intro _
        refine ⟨[], cs.dropWhile Char.isDigit, ?_, by simp, ?_, ?_⟩
        · simp [List.takeWhile_append_dropWhile]
        · simp [hc, takeWhile_all_sat]
        · intro d hd
          exact dropWhile_head_not Char.isDigit cs d hd
    · rw [firstDigitRun_cons, if_neg hc]
      constructor
      · intro h
        simpa [hc] using ih.1 h
      · intro h
        obtain ⟨pre, post, heq, hpre, hdig, hpost⟩ := ih.2 h
        refine ⟨c :: pre, post, ?_, by simp [hc, hpre], hdig, hpost⟩
        nth_rewrite 1 [heq]
        simp

/-- The shape required of a flight-number match: two uppercase ASCII
letters followed by three or four digits. -/
def flightNoShape (s : String) : Bool :=
  match s.data with
  | a :: b :: ds =>
    a.isUpper && b.isUpper && decide (3 ≤ ds.length) && decide (ds.length ≤ 4) &&
      ds.all Char.isDigit
  | _ => false

/-- A successful `matchFlightHere` yields a string of the flight-number
shape. -/
theorem matchFlightHere_shape (l m rest : List Char)
    (h : matchFlightHere l = some (m, rest)) : flightNoShape (String.mk m) = true := by
  unfold matchFlightHere at h
  repeat' split at h
  all_goals (try (exfalso; simp at h; done))
  all_goals
    simp only [Option.some.injEq, Prod.mk.injEq] at h
  all_goals obtain ⟨rfl, rfl⟩ := h
  all_goals simp_all [flightNoShape]

/-- Every string produced by the flight-number scanner has the
flight-number shape. -/
theorem findFlightAux_shape (fuel : Nat) :
    ∀ (pw : Bool) (l : List Char) (s : String),
      s ∈ findFlightAux fuel pw l → flightNoShape s = true := by
  induction fuel with
  | zero => intro pw l s h; simp [findFlightAux] at h
  | succ n ih =>
    intro pw l s h
    match l with
    | [] => simp [findFlightAux] at h
    | c :: cs =>
      rw [findFlightAux] at h
      split at h
      · exact ih _ _ _ h
      · split at h
        next m rest hm =>
          rcases List.mem_cons.mp h with h1 | h2
          · subst h1; exact matchFlightHere_shape _ _ _ hm
          · exact ih _ _ _ h2
        next => exact ih _ _ _ h

/-! ## Claim C3, C4, C5, C9 -/

/-- C3: for every body text, fallback extraction returns at most 10 records
and never more records than the number of distinct flight-number matches
found in the text. -/
theorem c3_fallback_bounds (text : String) :
    (extract_generic_flight_info text).length ≤ 10 ∧
    (extract_generic_flight_info text).length ≤ (findFlightNos text).dedup.length := by
  unfold extract_generic_flight_info
  rw [genericCombine_length]
  exact ⟨Nat.min_le_left _ _, Nat.min_le_right _ _⟩

/-- C4: the i-th fallback record pairs the i-th retained unique flight
number with the time matches at positions 2i and 2i+1 and the price match
at position i, and any out-of-range position yields the empty string
instead of an indexing error. -/
theorem c4_fallback_pairing (text : String) (i : Nat)
    (h : i < (extract_generic_flight_info text).length) :
    ((extract_generic_flight_info text).get ⟨i, h⟩).depart_time
        = (findTimes text).getD (i * 2) "" ∧
    ((extract_generic_flight_info text).get ⟨i, h⟩).arrive_time
        = (findTimes text).getD (i * 2 + 1) "" ∧
    ((extract_generic_flight_info text).get ⟨i, h⟩).price
        = (findPrices text).getD i "" ∧
    ((findTimes text).length ≤ i * 2 →
      ((extract_generic_flight_info text).get ⟨i, h⟩).depart_time = "") ∧
    ((findTimes text).length ≤ i * 2 + 1 →
      ((extract_generic_flight_info text).get ⟨i, h⟩).arrive_time = "") ∧
    ((findPrices text).length ≤ i →
      ((extract_generic_flight_info text).get ⟨i, h⟩).price = "") := by
  have hG : (extract_generic_flight_info text).get ⟨i, h⟩ =
      { flight_no := ((findFlightNos text).dedup.take 10).getD i "",
        depart_time := (findTimes text).getD (i * 2) "",
        arrive_time := (findTimes text).getD (i * 2 + 1) "",
        price := (findPrices text).getD i "" } :=
    genericCombine_get (findFlightNos text).dedup (findTimes text) (findPrices text) i h
  refine ⟨by rw [hG], by rw [hG], by rw [hG], ?_, ?_, ?_⟩
  · intro hlen
    rw [hG]
    exact List.getD_eq_default _ _ hlen
  · intro hlen
    rw [hG]
    exact List.getD_eq_default _ _ hlen
  · intro hlen
    rw [hG]
    exact List.getD_eq_default _ _ hlen

/-- Witness for C4 at the body text "AB123": one record is synthesized and
all of its positional fields behave as stated (both time lists are short,
so both time fields are empty). -/
theorem c4_fallback_pairing_witness :
    ((extract_generic_flight_info "AB123").get ⟨0, by decide⟩).depart_time
        = (findTimes "AB123").getD 0 "" ∧
    ((extract_generic_flight_info "AB123").get ⟨0, by decide⟩).arrive_time
        = (findTimes "AB123").getD 1 "" ∧
    ((extract_generic_flight_info "AB123").get ⟨0, by decide⟩).price
        = (findPrices "AB123").getD 0 "" ∧
    ((findTimes "AB123").length ≤ 0 →
      ((extract_generic_flight_info "AB123").get ⟨0, by decide⟩).depart_time = "") ∧
    ((findTimes "AB123").length ≤ 1 →
      ((extract_generic_flight_info "AB123").get ⟨0, by decide⟩).arrive_time = "") ∧
    ((findPrices "AB123").length ≤ 0 →
      ((extract_generic_flight_info "AB123").get ⟨0, by decide⟩).price = "") :=
  c4_fallback_pairing "AB123" 0 (by decide)

/-- C5: price parsing first removes every comma and then takes the first
run of digits: when the result is empty the comma-stripped text has no
digit, and otherwise the result is the first maximal digit run of the
comma-stripped text; on "¥1,230 起" it yields "1230". -/
theorem c5_price_parse :
    (∀ s : String,
      (extractPriceDigits s = "" → (pyRemoveCommas s).all (fun c => !c.isDigit) = true) ∧
      (extractPriceDigits s ≠ "" →
        ∃ pre post, pyRemoveCommas s = pre ++ (extractPriceDigits s).data ++ post ∧
          pre.all (fun c => !c.isDigit) = true ∧
          (extractPriceDigits s).data.all Char.isDigit = true ∧
          ∀ c, post.head? = some c → c.isDigit = false)) ∧
    extractPriceDigits "¥1,230 起" = "1230" := by
  constructor
  · intro s
    have hs := firstDigitRun_spec (pyRemoveCommas s)
    constructor
    · intro h
      apply hs.1
      have := congrArg String.data h
      simpa [extractPriceDigits] using this
    · intro h
      have hne : firstDigitRun (pyRemoveCommas s) ≠ [] := by
        intro he
        apply h
        simp [extractPriceDigits, he]
      obtain ⟨pre, post, heq, h1, h2, h3⟩ := hs.2 hne
      exact ⟨pre, post, by simpa [extractPriceDigits] using heq, h1,
        by simpa [extractPriceDigits] using h2, h3⟩
  · rfl

/-- Witness for the C5 characterization at an input with no digits: the
degenerate branch is discharged concretely. -/
theorem c5_price_parse_witness :
    (pyRemoveCommas "abc").all (fun c => !c.isDigit) = true :=
  (c5_price_parse.1 "abc").1 rfl

/-- C9: every fallback record has a non-empty flight number of the
flight-number pattern shape, and hence satisfies the retention condition
of the structured phase even though the fallback applies no filter. -/
theorem c9_fallback_flightno (text : String) (g : GenFlightInfo)
    (hg : g ∈ extract_generic_flight_info text) :
    g.flight_no ≠ "" ∧ flightNoShape g.flight_no = true ∧
    (truthyOpt (genToInfo g).flight_no || truthyOpt (genToInfo g).price) = true := by
  have hmem : g.flight_no ∈ findFlightNos text := by
    unfold extract_generic_flight_info genericCombine at hg
    obtain ⟨p, hp, hgp⟩ := List.mem_map.mp hg
    have h2 : p.2 ∈ (findFlightNos text).dedup.take 10 := List.snd_mem_of_mem_enum hp
    have h4 : p.2 ∈ findFlightNos text :=
      List.mem_dedup.mp (List.mem_of_mem_take h2)
    have hpg : g.flight_no = p.2 := by rw [← hgp]
    rw [hpg]
    exact h4
  have hshape : flightNoShape g.flight_no = true :=
    findFlightAux_shape _ _ _ _ hmem
  have hne : g.flight_no ≠ "" := by
    intro he
    rw [he] at hshape
    exact absurd hshape (by decide)
  refine ⟨hne, hshape, ?_⟩
  simp [genToInfo, truthyOpt, hne]

/-- Witness for C9: the single record extracted from body text "AB123". -/
theorem c9_fallback_flightno_witness :
    (GenFlightInfo.mk "AB123" "" "" "123").flight_no ≠ "" ∧
    flightNoShape (GenFlightInfo.mk "AB123" "" "" "123").flight_no = true ∧
    (truthyOpt (genToInfo (GenFlightInfo.mk "AB123" "" "" "123")).flight_no ||
      truthyOpt (genToInfo (GenFlightInfo.mk "AB123" "" "" "123")).price) = true :=
  c9_fallback_flightno "AB123" (GenFlightInfo.mk "AB123" "" "" "123") (by decide)

/-! ## Lemmas on the structured card loop -/

/-- The card loop body succeeds exactly when no read raises, and then its
value is the cumulative record of all attempts. -/
theorem extractCardE_eq (c : Card) :
    extractCardE c =
      (if cardNoRaise c then Except.ok (extractCardPartial c) else Except.error ()) := by
  rcases c with ⟨a, ts, ap, p, cr, rt⟩
  cases a <;> cases ts <;> cases ap <;> cases p <;> cases cr <;> cases rt <;> rfl

/-- Retention of a card, restated over the after-all-attempts record. -/
theorem retainedCard_eq (c : Card) :
    retainedCard c = (cardNoRaise c &&
      (truthyOpt (extractCardPartial c).flight_no ||
        truthyOpt (extractCardPartial c).price)) := by
  unfold retainedCard
  rw [extractCardE_eq]
  by_cases h : cardNoRaise c = true <;> simp [h]

/-- A retained card in the first 20 contributes its record to the
structured output. -/
theorem structuredRecords_mem (cards : List Card) (c : Card) (hc : c ∈ cards.take 20)
    (hr : retainedCard c = true) : extractCardPartial c ∈ structuredRecords cards := by
  unfold structuredRecords
  apply List.mem_filterMap.mpr
  refine ⟨c, hc, ?_⟩
  rw [retainedCard_eq, Bool.and_eq_true] at hr
  obtain ⟨hn, ht⟩ := hr
  rw [extractCardE_eq, if_pos hn]
  show (if (truthyOpt (extractCardPartial c).flight_no ||
      truthyOpt (extractCardPartial c).price) = true
    then some (extractCardPartial c) else none) = some (extractCardPartial c)
  rw [if_pos ht]

/-- Every structured-output record comes from a retained card among the
first 20, and satisfies the retention condition. -/
theorem structuredRecords_mem_inv (cards : List Card) (r : FlightInfo)
    (h : r ∈ structuredRecords cards) :
    ∃ c, c ∈ cards.take 20 ∧ retainedCard c = true ∧ r = extractCardPartial c ∧
      (truthyOpt r.flight_no || truthyOpt r.price) = true := by
  unfold structuredRecords at h
  obtain ⟨c, hc, hfc⟩ := List.mem_filterMap.mp h
  rw [extractCardE_eq] at hfc
  by_cases hn : cardNoRaise c = true
  · rw [if_pos hn] at hfc
    have hfc2 : (if (truthyOpt (extractCardPartial c).flight_no ||
        truthyOpt (extractCardPartial c).price) = true
      then some (extractCardPartial c) else none) = some r := hfc
    by_cases ht : (truthyOpt (extractCardPartial c).flight_no ||
        truthyOpt (extractCardPartial c).price) = true
    · rw [if_pos ht] at hfc2
      have hre : extractCardPartial c = r := Option.some.inj hfc2
      refine ⟨c, hc, ?_, hre.symm, ?_⟩
      · rw [retainedCard_eq, hn, ht]
        rfl
      · rw [← hre]
        exact ht
    · rw [if_neg ht] at hfc2
      exact absurd hfc2 (by simp)
  · rw [if_neg hn] at hfc
    exact absurd hfc (by simp)

/-! ## Claims C1 and C10 -/

/-- C1 (amended): a record for a card among the first 20 is included in the
structured output exactly when no field-level read of that card raised and,
after all attempts, its flight number or price is a non-empty string; a
card whose extraction raises mid-way is skipped even when the fields
already assigned would satisfy the retention condition. -/
theorem c1_structured_retention (cards : List Card) (c : Card)
    (hc : c ∈ cards.take 20) :
    retainedCard c = (cardNoRaise c &&
      (truthyOpt (extractCardPartial c).flight_no ||
        truthyOpt (extractCardPartial c).price)) ∧
    (retainedCard c = true → extractCardPartial c ∈ structuredRecords cards) ∧
    (∀ r ∈ structuredRecords cards, ∃ c2, c2 ∈ cards.take 20 ∧
      retainedCard c2 = true ∧ r = extractCardPartial c2 ∧
      (truthyOpt r.flight_no || truthyOpt r.price) = true) :=
  ⟨retainedCard_eq c,
   fun hr => structuredRecords_mem cards c hc hr,
   fun r hr => by
     obtain ⟨c2, h1, h2, h3, h4⟩ := structuredRecords_mem_inv cards r hr
     exact ⟨c2, h1, h2, h3, h4⟩⟩

/-- A card whose airline text yields a flight number but whose aircraft
read raises: the record after all completed attempts has a non-empty
flight number, yet the card is dropped. -/
def cardCex : Card :=
  { airline_text := Except.ok (some "海航 HU7181"), time_texts := Except.ok [],
    airport_texts := Except.ok [], price_text := Except.ok none,
    craft_text := Except.error (), rate_text := Except.ok none }

/-- C1 counterexample: for `cardCex`, the flight-number field is non-empty
after all field-level attempts that ran, yet no record is included in the
structured output, refuting the included-iff-non-empty claim as stated. -/
theorem c1_counterexample :
    truthyOpt (extractCardPartial cardCex).flight_no = true ∧
    retainedCard cardCex = false ∧
    structuredRecords [cardCex] = [] := by
  refine ⟨?_, ?_, ?_⟩ <;> decide

/-- Witness for C1 on a fully successful card. -/
def cardGood : Card :=
  { airline_text := Except.ok (some "海南航空 HU7181"),
    time_texts := Except.ok ["08:30", "10:45"],
    airport_texts := Except.ok ["美兰T2", "首都T1"],
    price_text := Except.ok (some "¥1,230 起"),
    craft_text := Except.ok (some "738"), rate_text := Except.ok (some "98%") }

/-- Witness for C1: the amended equivalence instantiated at a singleton
card list whose card is retained. -/
theorem c1_structured_retention_witness :
    retainedCard cardGood = (cardNoRaise cardGood &&
      (truthyOpt (extractCardPartial cardGood).flight_no ||
        truthyOpt (extractCardPartial cardGood).price)) ∧
    (retainedCard cardGood = true →
      extractCardPartial cardGood ∈ structuredRecords [cardGood]) ∧
    (∀ r ∈ structuredRecords [cardGood], ∃ c2, c2 ∈ [cardGood].take 20 ∧
      retainedCard c2 = true ∧ r = extractCardPartial c2 ∧
      (truthyOpt r.flight_no || truthyOpt r.price) = true) :=
  c1_structured_retention [cardGood] cardGood (by simp)

/-- In the output of the card loop body, the two time fields were assigned
together or not at all, and likewise the two airport fields. -/
theorem extractCardE_pairs (c : Card) (r : FlightInfo)
    (h : extractCardE c = Except.ok r) :
    (r.depart_time.isSome ↔ r.arrive_time.isSome) ∧
    (r.depart_airport.isSome ↔ r.arrive_airport.isSome) := by
  rcases c with ⟨a, ts, ap, p, cr, rt⟩
  cases a <;> cases ts <;> cases ap <;> cases p <;> cases cr <;> cases rt
  all_goals try exact Except.noConfusion h
  rename_i a ts ap p cr rt
  have hre : applyRate (applyCraft (applyPrice (applyAirports (applyTimes
      (applyAirline {} a) ts) ap) p) cr) rt = r := Except.ok.inj h
  subst hre
  cases a <;> cases p <;> cases cr <;> cases rt <;>
    simp [applyRate, applyCraft, applyPrice, applyAirports, applyTimes,
      applyAirline] <;> split_ifs <;> simp

/-- C10: in every record produced by structured extraction, the two time
fields are both present or both absent, and likewise the two airport
fields, because each pair is assigned only together. -/
theorem c10_paired_fields (cards : List Card) (r : FlightInfo)
    (h : r ∈ structuredRecords cards) :
    (r.depart_time.isSome ↔ r.arrive_time.isSome) ∧
    (r.depart_airport.isSome ↔ r.arrive_airport.isSome) := by
  obtain ⟨c, hc, hret, hre, ht⟩ := structuredRecords_mem_inv cards r h
  have hn : cardNoRaise c = true := by
    rw [retainedCard_eq, Bool.and_eq_true] at hret
    exact hret.1
  have hE : extractCardE c = Except.ok r := by
    rw [extractCardE_eq, if_pos hn, hre]
  exact extractCardE_pairs c r hE

/-- A card for the C10 witness: only times and a price are present, so the
time pair is assigned and the airport pair is absent. -/
def cardTimesOnly : Card :=
  { airline_text := Except.ok none, time_texts := Except.ok ["09:00", "11:20"],
    airport_texts := Except.ok [], price_text := Except.ok (some "560"),
    craft_text := Except.ok none, rate_text := Except.ok none }

/-- Witness for C10 at a concrete extracted record. -/
theorem c10_paired_fields_witness :
    ((extractCardPartial cardTimesOnly).depart_time.isSome ↔
      (extractCardPartial cardTimesOnly).arrive_time.isSome) ∧
    ((extractCardPartial cardTimesOnly).depart_airport.isSome ↔
      (extractCardPartial cardTimesOnly).arrive_airport.isSome) :=
  c10_paired_fields [cardTimesOnly] (extractCardPartial cardTimesOnly) (by decide)

/-! ## Claim C6 -/

/-- The catch-per-pattern loop always ends in an ok value, whatever the
page does: no exception escapes `handle_popups`. -/
theorem popupLoop_ok (page : PopupPage) (hs : List (String × String)) :
    ∀ acc : Nat, ∃ n, popupLoop page hs acc = Except.ok n := by
  induction hs with
  | nil => intro acc; exact ⟨acc, rfl⟩
  | cons h t ih =>
    intro acc
    rcases hb : runPatternBody page h.1 with e | n <;> simp [popupLoop, hb] <;> apply ih

/-- A fold of per-pattern click counts that are all zero adds nothing. -/
theorem foldl_patternClicks_zero (page : PopupPage) (l : List (String × String))
    (hq : ∀ h ∈ l, patternClicks page h.1 = 0) :
    ∀ acc, l.foldl (fun acc h => acc + patternClicks page h.1) acc = acc := by
  induction l with
  | nil => intro acc; rfl
  | cons h t ih =>
    intro acc
    rw [List.foldl_cons, hq h (List.mem_cons_self h t)]
    exact ih (fun x hx => hq x (List.mem_cons_of_mem h hx)) acc

/-- C6: popup dismissal is total and idempotent: no invocation propagates
an exception to the caller, and on a page with no elements matching any of
the five patterns, an invocation performs zero clicks (hence nothing
changes and a second successive invocation also performs zero clicks). -/
theorem c6_popups_total_idempotent (page : PopupPage) :
    (∃ n, popupLoop page popup_handlers 0 = Except.ok n) ∧
    ((∀ h ∈ popup_handlers, page.query h.1 = Except.ok []) →
      handle_popups page = 0 ∧ handle_popups page + handle_popups page = 0) := by
  refine ⟨popupLoop_ok page popup_handlers 0, ?_⟩
  intro hq
  have h0 : handle_popups page = 0 := by
    unfold handle_popups
    apply foldl_patternClicks_zero
    intro h hm
    unfold patternClicks
    rw [hq h hm]
    rfl
  exact ⟨h0, by rw [h0]⟩

/-- A page with no popup elements at all. -/
def pageNoPopups : PopupPage := { query := fun _ => Except.ok [] }

/-- Witness for C6 on a page with no matching elements. -/
theorem c6_popups_total_idempotent_witness :
    (∃ n, popupLoop pageNoPopups popup_handlers 0 = Except.ok n) ∧
    (handle_popups pageNoPopups = 0 ∧
      handle_popups pageNoPopups + handle_popups pageNoPopups = 0) :=
  ⟨(c6_popups_total_idempotent pageNoPopups).1,
   (c6_popups_total_idempotent pageNoPopups).2 (fun _ _ => rfl)⟩

/-! ## Claim C8 -/

/-- Properties of the submit loop over any selector list: every attempted
click was on a candidate whose visibility check returned true; at most one
click succeeds; a successful click is the last attempt (the loop breaks);
and when no candidate is visible the loop attempts nothing. -/
theorem submitClicks_props (page : SubmitPage) (sels : List String) :
    (∀ a ∈ submitClicks page sels, page.visibleRes a.1 = Except.ok true) ∧
    ((submitClicks page sels).filter (fun a => a.2)).length ≤ 1 ∧
    (∀ l1 a l2, submitClicks page sels = l1 ++ a :: l2 → a.2 = true → l2 = []) ∧
    ((∀ sel ∈ sels, page.visibleRes sel ≠ Except.ok true) →
      submitClicks page sels = []) := by
  induction sels with
  | nil => exact ⟨by simp [submitClicks], by simp [submitClicks],
      by intro l1 a l2 h; simp [submitClicks] at h, fun _ => rfl⟩
  | cons sel rest ih =>
    rcases hv : page.visibleRes sel with e | b
    · have he : submitClicks page (sel :: rest) = submitClicks page rest := by
        simp [submitClicks, hv]
      rw [he]
      refine ⟨ih.1, ih.2.1, ih.2.2.1, ?_⟩
      intro hall
      exact ih.2.2.2 (fun x hx => hall x (List.mem_cons_of_mem sel hx))
    · cases b
      · have he : submitClicks page (sel :: rest) = submitClicks page rest := by
          simp [submitClicks, hv]
        rw [he]
        refine ⟨ih.1, ih.2.1, ih.2.2.1, ?_⟩
        intro hall
        exact ih.2.2.2 (fun x hx => hall x (List.mem_cons_of_mem sel hx))
      · rcases hc : page.clickRes sel with e2 | u
        · have he : submitClicks page (sel :: rest) =
              (sel, false) :: submitClicks page rest := by
            simp [submitClicks, hv, hc]
          rw [he]
          refine ⟨?_, ?_, ?_, ?_⟩
          · intro a ha
            rcases List.mem_cons.mp ha with h1 | h2
            · rw [h1]; exact hv
            · exact ih.1 a h2
          · simpa using ih.2.1
          · intro l1 a l2 hsplit ha2
            cases l1 with
            | nil =>
              simp at hsplit
              rw [← hsplit.1] at ha2
              simp at ha2
            | cons x xs =>
              simp at hsplit
              exact ih.2.2.1 xs a l2 hsplit.2 ha2
          · intro hall
            exact absurd hv (hall sel (List.mem_cons_self sel rest))
        · have he : submitClicks page (sel :: rest) = [(sel, true)] := by
            simp [submitClicks, hv, hc]
          rw [he]
          refine ⟨?_, by simp, ?_, ?_⟩
          · intro a ha
            rw [List.mem_singleton.mp ha]
            exact hv
          · intro l1 a l2 hsplit _
            have h2 := congrArg List.length hsplit
            simp at h2
            have h3 : l2.length = 0 := by omega
            exact List.eq_nil_of_length_eq_zero h3
          · intro hall
            exact absurd hv (hall sel (List.mem_cons_self sel rest))

/-- C8 (amended): submission tries its candidate selectors in order; every
click attempt is on a candidate found visible; a successful click is the
last attempt and at most one click succeeds; when no candidate is visible,
nothing is attempted and no error escapes.  (A failed click does not stop
the cascade: the loop moves on to later candidates.) -/
theorem c8_submit_cascade (page : SubmitPage) :
    (∀ a ∈ submitClicks page search_selectors, page.visibleRes a.1 = Except.ok true) ∧
    ((submitClicks page search_selectors).filter (fun a => a.2)).length ≤ 1 ∧
    (∀ l1 a l2, submitClicks page search_selectors = l1 ++ a :: l2 →
      a.2 = true → l2 = []) ∧
    ((∀ sel ∈ search_selectors, page.visibleRes sel ≠ Except.ok true) →
      submitClicks page search_selectors = []) :=
  submitClicks_props page search_selectors

/-- A page on which every candidate is visible but the click on the first
candidate raises. -/
def pageSubmitCex : SubmitPage :=
  { visibleRes := fun _ => Except.ok true,
    clickRes := fun sel =>
      if sel = "button:has-text(\"搜索\")" then Except.error () else Except.ok () }

/-- C8 counterexample: on `pageSubmitCex` the loop clicks the first visible
candidate, the click raises, and the loop then tries and clicks a second
candidate: it does not stop after the first visible candidate, refuting the
claim as stated. -/
theorem c8_counterexample :
    submitClicks pageSubmitCex search_selectors =
      [("button:has-text(\"搜索\")", false), ("button:has-text(\"查询\")", true)] := by
  decide

/-- A page with no visible submit candidate. -/
def pageNoSubmit : SubmitPage :=
  { visibleRes := fun _ => Except.ok false, clickRes := fun _ => Except.ok () }

/-- Witness for C8: on a page with no visible candidate, submission is
silently skipped. -/
theorem c8_submit_cascade_witness :
    submitClicks pageNoSubmit search_selectors = [] :=
  (c8_submit_cascade pageNoSubmit).2.2.2 (fun sel _ => by simp [pageNoSubmit])

/-! ## Claim C2 -/

/-- Abstract body steps contain no handler or cleanup event. -/
theorem count_map_bodyStep (l : List Nat) (e : Ev) (he : ∀ n, e ≠ Ev.bodyStep n) :
    (l.map Ev.bodyStep).count e = 0 := by
  rw [List.count_eq_zero]
  intro hmem
  obtain ⟨n, _, hn⟩ := List.mem_map.mp hmem
  exact he n hn.symm

/-- C2 (amended): any exception raised inside the main try block (after
browser launch, context and page creation) is caught once by the top-level
handler, which prints the error and a stack trace, writes the screenshot
file error_screenshot.png, waits 60 seconds, and then reaches the
guaranteed cleanup that closes the browser; no exception escapes, and the
cleanup also runs on the normal path.  (A browser launch failure is not of
this kind: it occurs before the try block and is not handled, see the
counterexample.) -/
theorem c2_error_handling (env : RunEnv) (hl : env.launchOk = true) :
    (search_flights_run env).2 = false ∧
    (search_flights_run env).1.count Ev.closeBrowser = 1 ∧
    (env.bodyRaises = true →
      (search_flights_run env).1.count Ev.printError = 1 ∧
      (search_flights_run env).1.count Ev.printTrace = 1 ∧
      (search_flights_run env).1.count (Ev.screenshot "error_screenshot.png") = 1 ∧
      (search_flights_run env).1.count (Ev.waitMs 60000) = 1 ∧
      ∃ l1 l2, (search_flights_run env).1 =
        l1 ++ [Ev.printError, Ev.printTrace, Ev.screenshot "error_screenshot.png",
               Ev.waitMs 60000, Ev.closeBrowser] ++ l2) := by
  unfold search_flights_run
  rw [hl]
  by_cases hb : env.bodyRaises
  · rw [hb]
    simp only [Bool.not_true, Bool.false_eq_true, if_false, if_true]
    refine ⟨by trivial, ?_, fun _ => ⟨?_, ?_, ?_, ?_, ?_⟩⟩
    · simp [List.count_append, List.count_cons,
        count_map_bodyStep env.bodySteps Ev.closeBrowser (fun n => by simp)]
    · simp [List.count_append, List.count_cons,
        count_map_bodyStep env.bodySteps Ev.printError (fun n => by simp)]
    · simp [List.count_append, List.count_cons,
        count_map_bodyStep env.bodySteps Ev.printTrace (fun n => by simp)]
    · simp [List.count_append, List.count_cons,
        count_map_bodyStep env.bodySteps (Ev.screenshot "error_screenshot.png")
          (fun n => by simp)]
    · simp [List.count_append, List.count_cons,
        count_map_bodyStep env.bodySteps (Ev.waitMs 60000) (fun n => by simp)]
    · refine ⟨[Ev.launch, Ev.newContext, Ev.newPage] ++ env.bodySteps.map Ev.bodyStep,
        [Ev.printDone], ?_⟩
      simp
  · rw [Bool.not_eq_true] at hb
    rw [hb]
    simp only [Bool.not_true, Bool.false_eq_true, if_false]
    refine ⟨by trivial, ?_, fun hcontra => absurd hcontra (by simp)⟩
    simp [List.count_append, List.count_cons,
      count_map_bodyStep env.bodySteps Ev.closeBrowser (fun n => by simp)]

/-- An environment in which `chromium.launch` raises. -/
def envLaunchFail : RunEnv := { launchOk := false, bodySteps := [], bodyRaises := true }

/-- C2 counterexample: a browser launch failure happens before the try
block, so it is not caught by the top-level handler: the exception escapes,
no screenshot is written, no 60-second wait occurs, and the finally cleanup
that closes the browser is never reached — refuting the claim as stated for
launch failures. -/
theorem c2_counterexample :
    (search_flights_run envLaunchFail).2 = true ∧
    Ev.closeBrowser ∉ (search_flights_run envLaunchFail).1 ∧
    Ev.screenshot "error_screenshot.png" ∉ (search_flights_run envLaunchFail).1 ∧
    Ev.waitMs 60000 ∉ (search_flights_run envLaunchFail).1 := by
  decide

/-- Witness for C2: a run whose body raises after one abstract step. -/
theorem c2_error_handling_witness :
    (search_flights_run (RunEnv.mk true [0] true)).2 = false ∧
    (search_flights_run (RunEnv.mk true [0] true)).1.count Ev.closeBrowser = 1 ∧
    (search_flights_run (RunEnv.mk true [0] true)).1.count
      (Ev.screenshot "error_screenshot.png") = 1 :=
  ⟨(c2_error_handling (RunEnv.mk true [0] true) rfl).1,
   (c2_error_handling (RunEnv.mk true [0] true) rfl).2.1,
   ((c2_error_handling (RunEnv.mk true [0] true) rfl).2.2 rfl).2.2.1⟩

/-! ## Claim C7 -/

/-- An ASCII digit character built from a value below ten. -/
theorem ofNat_digit (r : Nat) (h : r < 10) : (Char.ofNat (48 + r)).isDigit = true := by
  interval_cases r <;> decide

/-- Every character of the decimal rendering of a natural number is a
digit. -/
theorem natChars_digits (n : Nat) : ∀ c ∈ natChars n, c.isDigit = true := by
  induction n using Nat.strong_induction_on with
  | _ n ih =>
    intro c hc
    rw [natChars] at hc
    split at hc
    · next h =>
      rw [List.mem_singleton.mp hc]
      exact ofNat_digit n h
    · next h =>
      rcases List.mem_append.mp hc with h1 | h2
      · exact ih (n / 10) (Nat.div_lt_self (by omega) (by omega)) c h1
      · rw [List.mem_singleton.mp h2]
        exact ofNat_digit (n % 10) (Nat.mod_lt _ (by omega))

/-- Every character of a zero-padded strftime field is a digit. -/
theorem padZeros_digits (k n : Nat) : ∀ c ∈ padZeros k (natChars n), c.isDigit = true := by
  intro c hc
  rcases List.mem_append.mp hc with h1 | h2
  · rw [List.eq_of_mem_replicate h1]
    decide
  · exact natChars_digits n c h2

/-- A digit character is not a dash. -/
theorem digit_ne_dash (c : Char) (h : c.isDigit = true) : c ≠ '-' := by
  intro he
  rw [he] at h
  exact absurd h (by decide)

/-- Removing dashes from an all-digit list changes nothing. -/
theorem filter_no_dash (l : List Char) (h : ∀ c ∈ l, c.isDigit = true) :
    l.filter (fun c => c ≠ '-') = l :=
  List.filter_eq_self.mpr (fun c hc => by
    simpa using digit_ne_dash c (h c hc))

/-- The URL date equals the spec's YYYYMMDD rendering of tomorrow. -/
theorem dateForUrl_eq (today : Date) :
    dateForUrl today = specYYYYMMDD (nextDay today) := by
  unfold dateForUrl tomorrow_str strftime_Ymd specYYYYMMDD
  show String.mk ((fmt4 (nextDay today).year ++ '-' ::
    (fmt2 (nextDay today).month ++ '-' :: fmt2 (nextDay today).day)).filter
      (fun c => c ≠ '-')) = _
  unfold fmt2 fmt4
  rw [List.filter_append,
      filter_no_dash _ (padZeros_digits 4 (nextDay today).year),
      List.filter_cons, List.filter_append,
      filter_no_dash _ (padZeros_digits 2 (nextDay today).month),
      List.filter_cons,
      filter_no_dash _ (padZeros_digits 2 (nextDay today).day)]
  simp

/-- C7: for every start date, the date substituted into both search URLs is
tomorrow (today plus one day) rendered as YYYYMMDD, and the displayed date
string is the same date rendered as YYYY-MM-DD. -/
theorem c7_date_strings (today : Date) :
    url_international today =
      "https://flights.ctrip.com/international/search/oneway-sha-bjs?depdate=" ++
        specYYYYMMDD (nextDay today) ++ "&cabin=y_s" ∧
    url_domestic today =
      "https://flights.ctrip.com/online/list/oneway-hak-bjs?depdate=" ++
        specYYYYMMDD (nextDay today) ++ "&cabin=y_s" ∧
    tomorrow_str today = specDisplay (nextDay today) := by
  refine ⟨?_, ?_, rfl⟩
  · unfold url_international
    rw [dateForUrl_eq]
  · unfold url_domestic
    rw [dateForUrl_eq]
